import Mathlib

/-!
Verification development for the gof5 process bootstrap and configuration
resolver (src/cmd/gof5/main.go and src/pkg/config/config.go).

The Go code is shallowly embedded: every OS interaction (environment
variables, user lookups, file system calls, forking) is an explicit input
of the model, and each modelled function follows the source line by line.
Line numbers in comments refer to the corresponding Go source file.
-/

namespace Gof5

/-- A user record as returned by the Go os/user lookups
(fields Uid, Gid, Username, HomeDir, all strings in Go). -/
structure GoUser where
  uid : String
  gid : String
  username : String
  homeDir : String
deriving DecidableEq, Repr

/-- Model of filepath.Join on two clean, non-empty components. -/
def goJoin (a b : String) : String := a ++ "/" ++ b

/-- Model of filepath.Dir: everything before the last path separator,
"." when there is none, "/" for entries directly under the root. -/
def goDir (p : String) : String :=
  let cs := p.data
  if cs.contains '/' then
    let pre := ((cs.reverse.dropWhile (fun c => c ≠ '/')).reverse).dropLast
    if pre = [] then "/" else ⟨pre⟩
  else "."

/-- Digit accumulator for goAtoi. -/
def atoiNatAux : List Char → Nat → Option Nat
  | [], acc => some acc
  | c :: cs, acc =>
    if c.isDigit then atoiNatAux cs (acc * 10 + (c.toNat - 48)) else none

/-- Model of strconv.Atoi on the values that occur here: an optional sign
followed by at least one decimal digit. -/
def goAtoi (s : String) : Option Int :=
  match s.data with
  | [] => none
  | '-' :: cs =>
    if cs = [] then none else (atoiNatAux cs 0).map (fun n => -(n : Int))
  | '+' :: cs =>
    if cs = [] then none else (atoiNatAux cs 0).map (fun n => (n : Int))
  | cs => (atoiNatAux cs 0).map (fun n => (n : Int))

/-- ASCII whitespace as unicode.IsSpace treats it (space, tab, newline,
vertical tab, form feed, carriage return). -/
def isSpaceChar (c : Char) : Bool :=
  c = ' ' ∨ c = '\t' ∨ c = '\n' ∨ c = Char.ofNat 11 ∨ c = Char.ofNat 12 ∨ c = '\r'

/-- Model of strings.TrimSpace: drop leading and trailing whitespace. -/
def trimSpace (s : String) : String :=
  ⟨((s.data.dropWhile isSpaceChar).reverse.dropWhile isSpaceChar).reverse⟩

/-- config.go line 20: the fixed per-user dot-directory name. -/
def configDir : String := ".gof5"

/-- config.go line 21: the fixed configuration file name. -/
def configName : String := "config.yaml"

/-- config.go line 25: net.IPv4(127, 0, 0, 0xf5).To4(), as its four bytes. -/
def defaultDNSListenAddr : List Nat := [127, 0, 0, 245]

/-- config.go line 27: net.IPv4(127, 0, 0, 1).To4(), as its four bytes. -/
def defaultBSDDNSListenAddr : List Nat := [127, 0, 0, 1]

/-- config.go line 28: the supported transport drivers. -/
def supportedDrivers : List String := ["wireguard", "pppd"]

/-- Modelled from the spec: util.StrSliceContains (the util package is not
under src); membership of a string in a string slice. -/
def strSliceContains (l : List String) (s : String) : Bool := l.contains s

/-- The resolved Config record built by ReadConfig (driver, DNS listener
address as four bytes, config directory, cookie directory, numeric owner
ids, debug flag). -/
structure Config where
  driver : String
  listenDNS : List Nat
  path : String
  cookiePath : String
  uid : Int
  gid : Int
  debug : Bool
deriving DecidableEq, Repr

/-- Result of an os.Stat call on a directory: it is there, it is absent
(os.IsNotExist), or the stat itself failed with another error. -/
inductive StatR
  | found
  | missing
  | statError
deriving DecidableEq, Repr

/-- Result of reading and unmarshalling the settings document
(config.go lines 99 to 105): a successful parse carries the Driver value
(empty string when the key is unset) and the ListenDNS value (none when
the key is unset); notRead is an unreadable file (defaults are used);
parseError is a yaml.Unmarshal failure. -/
inductive ReadRes
  | ok (driver : String) (listenDNS : Option (List Nat))
  | notRead
  | parseError
deriving DecidableEq, Repr

/-- How ReadConfig can stop early: a returned error value, or a nil
pointer dereference of the unset usr variable (a Go runtime panic, not a
returned error). -/
inductive CfgErr
  | fatal (msg : String)
  | nilDeref
deriving DecidableEq, Repr

/-- All ambient inputs of config.ReadConfig: its two arguments, the
platform, the effective uid, the sudo marker variables, the user lookups,
and the file system answers. winTun is modelled from the spec: the
checkWinTunDriver availability check (its code is not under src) gates
the wireguard driver and either passes or fails. -/
structure CfgEnv where
  debug : Bool
  customConfigPath : String
  goos : String
  euid : Int
  sudoUID : String
  sudoUser : String
  lookupId : String → Option GoUser
  lookupName : String → Option GoUser
  currentUser : Option GoUser
  statR : String → StatR
  mkdirOk : String → Bool
  chownOk : String → Bool
  fileRead : ReadRes
  winTun : Bool

/-- config.go lines 36 to 53: resolve the acting user. Running as root
with SUDO_UID set, look the id up; on failure fall back to SUDO_USER by
name when that is set, and otherwise fall through with usr still nil
(no error is returned on that path). Without the sudo markers, take the
current user. -/
def sudoResolveUsr (e : CfgEnv) : Except CfgErr (Option GoUser) :=
  if e.euid = 0 ∧ e.sudoUID ≠ "" then
    match e.lookupId e.sudoUID with
    | some u => .ok (some u)
    | none =>
      if e.sudoUser ≠ "" then
        match e.lookupName e.sudoUser with
        | some u => .ok (some u)
        | none => .error (.fatal "failed to lookup user name")
      else
        .ok none
  else
    match e.currentUser with
    | some u => .ok (some u)
    | none => .error (.fatal "failed to detect home directory")

/-- The state ReadConfig has built after config.go line 94: the user (still
optional, see sudoResolveUsr), the resolved config directory and file, and
the numeric ids. -/
structure CfgPre where
  usr : Option GoUser
  configPath : String
  configFile : String
  uid : Int
  gid : Int
deriving Repr

/-- config.go lines 81 to 94: create the configuration directory when it
is missing and, off windows, set its owner. -/
def readConfigStat (e : CfgEnv) (usrOpt : Option GoUser) (configPath configFile : String)
    (uidN gidN : Int) : Except CfgErr CfgPre :=
  match e.statR configPath with
  | .missing =>
    if e.mkdirOk configPath then
      if e.goos ≠ "windows" then
        if e.chownOk configPath then
          .ok ⟨usrOpt, configPath, configFile, uidN, gidN⟩
        else
          .error (.fatal ("failed to set an owner for the " ++ configPath ++ " config directory"))
      else
        .ok ⟨usrOpt, configPath, configFile, uidN, gidN⟩
    else
      .error (.fatal ("failed to create " ++ configPath ++ " config directory"))
  | .found => .ok ⟨usrOpt, configPath, configFile, uidN, gidN⟩
  | .statError => .error (.fatal ("failed to get " ++ configPath ++ " directory stat"))

/-- config.go lines 68 to 79: uid and gid conversion, skipped on windows.
usr.Uid on line 71 dereferences the possibly nil usr. -/
def readConfigIds (e : CfgEnv) (usrOpt : Option GoUser) (configPath configFile : String) :
    Except CfgErr CfgPre :=
  if e.goos ≠ "windows" then
    match usrOpt with
    | none => .error .nilDeref
    | some u =>
      match goAtoi u.uid with
      | none => .error (.fatal ("failed to convert " ++ u.uid ++ " UID to integer"))
      | some uidN =>
        match goAtoi u.gid with
        -- line 77: the source formats usr.Uid in the GID message as well
        | none => .error (.fatal ("failed to convert " ++ u.uid ++ " GID to integer"))
        | some gidN => readConfigStat e usrOpt configPath configFile uidN gidN
  else readConfigStat e usrOpt configPath configFile 0 0

/-- config.go lines 55 to 66: custom configuration path, or the default
under the home directory. usr.HomeDir on line 64 dereferences the
possibly nil usr. -/
def readConfigPaths (e : CfgEnv) (usrOpt : Option GoUser) : Except CfgErr CfgPre :=
  if e.customConfigPath ≠ "" then
    readConfigIds e usrOpt (goDir e.customConfigPath) e.customConfigPath
  else
    match usrOpt with
    | none => .error .nilDeref
    | some u =>
      readConfigIds e usrOpt (goJoin u.homeDir configDir)
        (goJoin (goJoin u.homeDir configDir) configName)

/-- config.go lines 36 to 94: identity resolution, path resolution, uid
and gid conversion, and preparation of the configuration directory. -/
def readConfigPre (e : CfgEnv) : Except CfgErr CfgPre :=
  match sudoResolveUsr e with
  | .error er => .error er
  | .ok usrOpt => readConfigPaths e usrOpt

/-- config.go line 123: the unsupported-driver error text, naming the
offending value and the supported set. -/
def unsupportedDriverMsg (d : String) : String :=
  "\"" ++ d ++ "\" driver is unsupported, supported drivers are: [\"wireguard\" \"pppd\"]"

/-- config.go lines 136 to 162: the cookie directory, always the fixed
dot-directory under the home directory; create and chown it when it is
missing and distinct from the configuration directory, then assemble the
Config. usr.HomeDir on line 139 dereferences the possibly nil usr. -/
def readConfigCookie (e : CfgEnv) (st : CfgPre) (driver : String) (listenDNS : List Nat) :
    Except CfgErr Config :=
  match st.usr with
  | none => .error .nilDeref
  | some u =>
    let cookiePath := goJoin u.homeDir configDir
    let done : Config :=
      { driver := driver, listenDNS := listenDNS, path := st.configPath,
        cookiePath := cookiePath, uid := st.uid, gid := st.gid, debug := e.debug }
    if cookiePath ≠ st.configPath then
      match e.statR cookiePath with
      | .missing =>
        if e.mkdirOk cookiePath then
          if e.goos ≠ "windows" then
            if e.chownOk cookiePath then .ok done
            else .error (.fatal ("failed to set an owner for the " ++ cookiePath ++ " cookie directory"))
          else .ok done
        else .error (.fatal ("failed to create " ++ cookiePath ++ " cookie directory"))
      | .found => .ok done
      | .statError => .error (.fatal ("failed to get " ++ cookiePath ++ " directory stat"))
    else .ok done

/-- config.go lines 107 to 134: the driver default, the wintun gate, the
pppd-on-windows refusal, the supported-driver check, and the DNS listener
default per platform. -/
def readConfigValidate (e : CfgEnv) (st : CfgPre) (d0 : String) (l0 : Option (List Nat)) :
    Except CfgErr Config :=
  let driver := if d0 = "" then "wireguard" else d0
  if driver = "wireguard" ∧ ¬ e.winTun then
    .error (.fatal "wintun driver check failed")
  else if driver = "pppd" ∧ e.goos = "windows" then
    .error (.fatal "pppd driver is not supported in Windows")
  else if ¬ strSliceContains supportedDrivers driver then
    .error (.fatal (unsupportedDriverMsg driver))
  else
    let listenDNS :=
      match l0 with
      | some a => a
      | none =>
        if e.goos = "freebsd" ∨ e.goos = "darwin" then defaultBSDDNSListenAddr
        else defaultDNSListenAddr
    readConfigCookie e st driver listenDNS

/-- config.go lines 96 to 162: load the settings document (absence is
logged and defaults apply; a parse failure is fatal), then validate and
assemble. -/
def readConfigPost (e : CfgEnv) (st : CfgPre) : Except CfgErr Config :=
  match e.fileRead with
  | .ok d l => readConfigValidate e st d l
  | .notRead => readConfigValidate e st "" none
  | .parseError => .error (.fatal ("cannot parse " ++ st.configFile ++ " file"))

/-- config.go lines 31 to 162: the whole of config.ReadConfig. -/
def ReadConfig (e : CfgEnv) : Except CfgErr Config :=
  match readConfigPre e with
  | .error er => .error er
  | .ok st => readConfigPost e st

/-! ## Embedding of src/cmd/gof5/main.go -/

/-- Observable side effects of a main.go run, in program order:
reading the password file, writing and removing the PID marker, setting
environment variables, removing the password file (with the warning
variants for failed removals), launching the child, and the
post-daemonize PID rewrite of main.go lines 219 to 222. -/
inductive Ev
  | readFile (path : String)
  | writePID (path : String) (pid : Nat)
  | removePID (path : String)
  | warnRemovePID (path : String)
  | setEnvVar (name val : String)
  | removeFile (path : String)
  | warnRemoveFile (path : String)
  | fork
  | rewritePID (path : String) (pid : Nat)
  | warnRewritePID (path : String)
deriving DecidableEq, Repr

/-- How a run of main ends: os.Exit(0) for the version print, the parent
exit inside daemonize, a fatal exit (log.Fatal or the windows variant,
both reaching os.Exit so deferred calls do not run), a Go runtime panic,
or a normal return from main (deferred calls run). -/
inductive Outcome
  | exitOK
  | parentExit
  | fatalExit (msg : String)
  | panicked
  | normalReturn
deriving DecidableEq, Repr

/-- Everything observable about a finished run: the outcome, the effect
trace, the final values of the opts.Password and passwordFile variables,
the final values of the two reserved environment variables, the resolved
Config (when reached), and the daemon log path (when computed). -/
structure RunResult where
  outcome : Outcome
  events : List Ev
  password : String
  passwordFileVar : String
  envHandoff : String
  envMarker : String
  cfg : Option Config
  logPath : Option String
deriving DecidableEq, Repr

/-- The command-line values as they stand after flag.Parse (main.go lines
113 to 130): for a flag absent from the command line this is the default
registered for it. Flags not consulted by the modelled slice of main
(server, username, session, TLS material, close-session, select) are
omitted. -/
structure Flags where
  password : String
  passwordFile : String
  removePassFile : Bool
  logFile : String
  config : String
  debug : Bool
  version : Bool
  profileIndex : Int
deriving Repr

/-- All ambient inputs of main: the three environment variables it reads,
the parsed flags, the daemon request, the external collaborators
(checkPermissions, UrlHandlerF5Vpn, client.Connect, each an error or
success), the configuration resolver inputs, and the file system answers.
daemon is modelled from the spec: opts.Daemon is consulted on main.go
line 188 but no code under src sets it (no daemon flag is registered).
permErr is modelled from the spec: checkPermissions is not under src. -/
structure MainEnv where
  envDaemonized : String
  envHandoffPassword : String
  envGOF5Password : String
  flags : Flags
  daemon : Bool
  positional : Bool
  urlErr : Option String
  permErr : Option String
  ce : CfgEnv
  readPwFile : String → Except String String
  pid : Nat
  pidWriteErr : Option String
  pwRemoveOk : Bool
  logMkdirOk : Bool
  logOpenOk : Bool
  forkOk : Bool
  connectErr : Option String
  pidRemoveOk : Bool

/-- main.go line 179: the PID marker path, from the current user. -/
def mainPidPath (u : GoUser) : String :=
  goJoin (goJoin "/tmp" "gof5") (u.username ++ ".pid")

/-- main.go line 206: the default daemon log path, from the current user. -/
def mainLogPath (u : GoUser) : String :=
  goJoin (goJoin "/tmp" "gof5") (u.username ++ ".log")

/-- main.go line 190: the fatal message for daemon mode without a
resolved password. -/
def daemonPasswordRequiredMsg : String :=
  "password is required for daemon mode; use --password, --password-file, or GOF5_PASSWORD environment variable"

/-- Result of main.go lines 37 to 72 (daemonize): an error return, the
parent exiting via os.Exit(0) after a successful launch, or a normal
return to the caller. The source can only reach the first two: every
branch either returns an error or exits, and the final return on line 71
stands after os.Exit(0). The returned constructor exists in the model so
that the dead code of main.go lines 213 to 222 can be embedded. -/
inductive DRes
  | err (msg : String)
  | parentExit
  | returned
deriving DecidableEq, Repr

/-- main.go lines 37 to 72: refuse on windows, create the log directory,
open the log file, launch the child, then exit the parent. -/
def daemonize (isWindows mkdirOk openOk startOk : Bool) : DRes :=
  if isWindows then .err "daemon mode is not supported on Windows"
  else if ¬ mkdirOk then .err "failed to create log directory"
  else if ¬ openOk then .err "failed to open log file"
  else if ¬ startOk then .err "failed to start daemon process"
  else .parentExit

/-- The state main has built after line 176: the resolved password, the
passwordFile variable, the resolved Config, the current user, the final
handoff variable value, and the effects so far. -/
structure PreSt where
  password : String
  passwordFileVar : String
  cfg : Config
  usr : GoUser
  envHandoff : String
  evs : List Ev
deriving Repr

/-- The final value of the reserved handoff variable in the process
environment: the child cleared it on main.go line 108, the parent left it
untouched up to this point. -/
def envHandoffAfterStart (m : MainEnv) : String :=
  if m.envDaemonized = "1" then "" else m.envHandoffPassword

/-- The events of main.go lines 103 to 111: the child clears the handoff
variable. -/
def startEvs (m : MainEnv) : List Ev :=
  if m.envDaemonized = "1" then [Ev.setEnvVar "__GOF5_PASSWORD" ""] else []

/-- main.go lines 172 to 176: the current-user lookup for the PID and log
paths, and the state handed to the rest of main. -/
def mainFinish (m : MainEnv) (cfg : Config) (password2 : String) (evs1 : List Ev) :
    Except RunResult PreSt :=
  match m.ce.currentUser with
  | none =>
    .error { outcome := .fatalExit "failed to get current user", events := evs1,
             password := password2, passwordFileVar := m.flags.passwordFile,
             envHandoff := envHandoffAfterStart m, envMarker := m.envDaemonized,
             cfg := some cfg, logPath := none }
  | some usr =>
    .ok { password := password2, passwordFileVar := m.flags.passwordFile,
          cfg := cfg, usr := usr, envHandoff := envHandoffAfterStart m, evs := evs1 }

/-- main.go lines 158 to 170: password resolution after flag parsing.
The opts.Password variable holds the password flag value at this point,
the passwordFile variable the password-file flag value (flag registration
overwrote the child-branch assignments of lines 106 and 110). A file read
failure is fatal; otherwise the file content is trimmed; otherwise the
GOF5_PASSWORD variable is consulted. -/
def mainResolvePw (m : MainEnv) (cfg : Config) : Except RunResult PreSt :=
  if m.flags.password = "" then
    if m.flags.passwordFile ≠ "" then
      match m.readPwFile m.flags.passwordFile with
      | .error oserr =>
        .error { outcome := .fatalExit ("failed to read password file: " ++ oserr),
                 events := startEvs m ++ [Ev.readFile m.flags.passwordFile],
                 password := m.flags.password, passwordFileVar := m.flags.passwordFile,
                 envHandoff := envHandoffAfterStart m, envMarker := m.envDaemonized,
                 cfg := some cfg, logPath := none }
      | .ok data =>
        mainFinish m cfg (trimSpace data) (startEvs m ++ [Ev.readFile m.flags.passwordFile])
    else if m.envGOF5Password ≠ "" then mainFinish m cfg m.envGOF5Password (startEvs m)
    else mainFinish m cfg "" (startEvs m)
  else mainFinish m cfg m.flags.password (startEvs m)

/-- main.go line 152: the argument of config.ReadConfig, the ambient
configuration environment with the debug flag and the config-path flag
of this invocation. -/
def mainCfgEnv (m : MainEnv) : CfgEnv :=
  { m.ce with
    debug := m.flags.debug,
    customConfigPath := m.flags.config }

/-- main.go lines 151 to 156: configuration resolution; an error is fatal
and the nil dereference inside the resolver is a runtime panic. -/
def mainReadCfg (m : MainEnv) : Except RunResult PreSt :=
  match ReadConfig (mainCfgEnv m) with
  | .error .nilDeref =>
    .error { outcome := .panicked, events := startEvs m, password := m.flags.password,
             passwordFileVar := m.flags.passwordFile, envHandoff := envHandoffAfterStart m,
             envMarker := m.envDaemonized, cfg := none, logPath := none }
  | .error (.fatal msg) =>
    .error { outcome := .fatalExit msg, events := startEvs m, password := m.flags.password,
             passwordFileVar := m.flags.passwordFile, envHandoff := envHandoffAfterStart m,
             envMarker := m.envDaemonized, cfg := none, logPath := none }
  | .ok cfg => mainResolvePw m cfg

/-- main.go lines 96 to 176: the daemon-child environment branch, flag
parsing, the version and profile-index checks, the permission precheck,
the deep-link handler, and then the stages above. An early process exit
is returned as a complete RunResult.

Lines 104 to 111 run before the flags are registered. Registering a flag
(flag.StringVar on lines 113 to 128) stores the flag default into the
target variable at once, and flag.Parse then overwrites it with any
command-line value; after line 130 each variable therefore holds exactly
the Flags value, and the two assignments made in the child branch
(opts.Password from the handoff variable, passwordFile cleared) are
discarded. Only the os.Setenv of line 108 survives; it is recorded by
envHandoffAfterStart and startEvs. -/
def mainPre (m : MainEnv) : Except RunResult PreSt :=
  -- lines 132 to 135
  if m.flags.version then
    .error { outcome := .exitOK, events := startEvs m, password := m.flags.password,
             passwordFileVar := m.flags.passwordFile, envHandoff := envHandoffAfterStart m,
             envMarker := m.envDaemonized, cfg := none, logPath := none }
  -- lines 137 to 139
  else if m.flags.profileIndex < 0 then
    .error { outcome := .fatalExit "profile-index cannot be negative", events := startEvs m,
             password := m.flags.password, passwordFileVar := m.flags.passwordFile,
             envHandoff := envHandoffAfterStart m, envMarker := m.envDaemonized,
             cfg := none, logPath := none }
  else
    -- lines 141 to 143
    match m.permErr with
    | some msg =>
      .error { outcome := .fatalExit msg, events := startEvs m, password := m.flags.password,
               passwordFileVar := m.flags.passwordFile, envHandoff := envHandoffAfterStart m,
               envMarker := m.envDaemonized, cfg := none, logPath := none }
    | none =>
      -- lines 145 to 149
      if m.positional then
        match m.urlErr with
        | some msg =>
          .error { outcome := .fatalExit msg, events := startEvs m, password := m.flags.password,
                   passwordFileVar := m.flags.passwordFile, envHandoff := envHandoffAfterStart m,
                   envMarker := m.envDaemonized, cfg := none, logPath := none }
        | none => mainReadCfg m
      else mainReadCfg m

/-- main.go lines 178 to 228: the PID marker write, the daemon branch and
the hand-off to client.Connect, with the deferred removePIDFile of line
185 running only on a normal return from main (os.Exit and log.Fatal
skip deferred calls). -/
def mainPost (m : MainEnv) (st : PreSt) : RunResult :=
  let pidPath := mainPidPath st.usr
  -- lines 181 to 184
  match m.pidWriteErr with
  | some msg =>
    { outcome := .fatalExit msg, events := st.evs, password := st.password,
      passwordFileVar := st.passwordFileVar, envHandoff := st.envHandoff,
      envMarker := m.envDaemonized, cfg := some st.cfg, logPath := none }
  | none =>
    let evs1 := st.evs ++ [Ev.writePID pidPath m.pid]
    -- line 188
    if m.daemon ∧ m.envDaemonized ≠ "1" then
      -- lines 189 to 191
      if st.password = "" then
        { outcome := .fatalExit daemonPasswordRequiredMsg, events := evs1,
          password := st.password, passwordFileVar := st.passwordFileVar,
          envHandoff := st.envHandoff, envMarker := m.envDaemonized,
          cfg := some st.cfg, logPath := none }
      else
        -- lines 193 to 195
        let evs2 := evs1 ++ [Ev.setEnvVar "__GOF5_PASSWORD" st.password,
                             Ev.setEnvVar "__GOF5_DAEMONIZED" "1"]
        -- lines 197 to 202
        let evs3 :=
          if st.passwordFileVar ≠ "" ∧ m.flags.removePassFile then
            if m.pwRemoveOk then evs2 ++ [Ev.removeFile st.passwordFileVar]
            else evs2 ++ [Ev.warnRemoveFile st.passwordFileVar]
          else evs2
        -- lines 204 to 207
        let lp := if m.flags.logFile = "" then mainLogPath st.usr else m.flags.logFile
        -- lines 209 to 222
        match daemonize (m.ce.goos = "windows") m.logMkdirOk m.logOpenOk m.forkOk with
        | .err msg =>
          { outcome := .fatalExit msg, events := evs3, password := st.password,
            passwordFileVar := st.passwordFileVar, envHandoff := st.password,
            envMarker := "1", cfg := some st.cfg, logPath := some lp }
        | .parentExit =>
          { outcome := .parentExit, events := evs3 ++ [Ev.fork], password := st.password,
            passwordFileVar := st.passwordFileVar, envHandoff := st.password,
            envMarker := "1", cfg := some st.cfg, logPath := some lp }
        | .returned =>
          -- lines 213 to 222 (never reached: daemonize cannot return normally)
          let evs4 := evs3 ++ [Ev.fork] ++
            (match m.pidWriteErr with
             | none => [Ev.rewritePID pidPath m.pid]
             | some _ => [Ev.warnRewritePID pidPath])
          match m.connectErr with
          | some msg =>
            { outcome := .fatalExit msg, events := evs4, password := st.password,
              passwordFileVar := st.passwordFileVar, envHandoff := st.password,
              envMarker := "1", cfg := some st.cfg, logPath := some lp }
          | none =>
            { outcome := .normalReturn,
              events := evs4 ++ (if m.pidRemoveOk then [Ev.removePID pidPath]
                                 else [Ev.removePID pidPath, Ev.warnRemovePID pidPath]),
              password := st.password, passwordFileVar := st.passwordFileVar,
              envHandoff := st.password, envMarker := "1", cfg := some st.cfg,
              logPath := some lp }
    else
      -- lines 225 to 228 and the deferred removePIDFile of line 185
      match m.connectErr with
      | some msg =>
        { outcome := .fatalExit msg, events := evs1, password := st.password,
          passwordFileVar := st.passwordFileVar, envHandoff := st.envHandoff,
          envMarker := m.envDaemonized, cfg := some st.cfg, logPath := none }
      | none =>
        { outcome := .normalReturn,
          events := evs1 ++ (if m.pidRemoveOk then [Ev.removePID pidPath]
                             else [Ev.removePID pidPath, Ev.warnRemovePID pidPath]),
          password := st.password, passwordFileVar := st.passwordFileVar,
          envHandoff := st.envHandoff, envMarker := m.envDaemonized,
          cfg := some st.cfg, logPath := none }

/-- main.go lines 96 to 228: a whole run of main. -/
def mainRun (m : MainEnv) : RunResult :=
  match mainPre m with
  | .error r => r
  | .ok st => mainPost m st

/-! ## Concrete environments used by the witnesses and counterexamples -/

/-- An ordinary unprivileged user. -/
def alice : GoUser :=
  { uid := "1000", gid := "1000", username := "alice", homeDir := "/home/alice" }

/-- The root user, as user.Current returns it under sudo. -/
def rootUser : GoUser :=
  { uid := "0", gid := "0", username := "root", homeDir := "/root" }

/-- A healthy non-sudo linux environment for the configuration resolver:
alice is the current user, every directory is present, the settings
document is absent (defaults apply), the wintun check passes. -/
def ceAlice : CfgEnv :=
  { debug := false, customConfigPath := "", goos := "linux", euid := 1000,
    sudoUID := "", sudoUser := "",
    lookupId := fun _ => none, lookupName := fun _ => none,
    currentUser := some alice,
    statR := fun _ => .found, mkdirOk := fun _ => true, chownOk := fun _ => true,
    fileRead := .notRead, winTun := true }

/-- The same machine seen from a sudo-escalated process: effective uid 0,
SUDO_UID names alice, user.Current answers root. -/
def ceSudo : CfgEnv :=
  { ceAlice with
    euid := 0,
    sudoUID := "1000",
    lookupId := fun s => if s = "1000" then some alice else none,
    currentUser := some rootUser }

/-- Flags as parsed from an empty command line. -/
def flagsNone : Flags :=
  { password := "", passwordFile := "", removePassFile := false, logFile := "",
    config := "", debug := false, version := false, profileIndex := 0 }

/-- A baseline foreground run by alice: no daemon request, no password
sources, every file system call succeeds, Connect succeeds. -/
def envBase : MainEnv :=
  { envDaemonized := "", envHandoffPassword := "", envGOF5Password := "",
    flags := flagsNone, daemon := false, positional := false,
    urlErr := none, permErr := none, ce := ceAlice,
    readPwFile := fun _ => .error "no such file or directory",
    pid := 4242, pidWriteErr := none, pwRemoveOk := true,
    logMkdirOk := true, logOpenOk := true, forkOk := true,
    connectErr := none, pidRemoveOk := true }

/-- The resolved Config of a plain run by alice with no settings document. -/
def cfgAlice : Config :=
  { driver := "wireguard", listenDNS := [127, 0, 0, 245], path := "/home/alice/.gof5",
    cookiePath := "/home/alice/.gof5", uid := 1000, gid := 1000, debug := false }

/-! ## Helper lemmas -/

/-- The events a run can produce before the PID marker write: reading the
password file and the child clearing the handoff variable. -/
def preEv : Ev → Bool
  | .setEnvVar _ _ => true
  | .readFile _ => true
  | _ => false

/-- daemonize never returns normally: every branch of main.go lines 37
to 72 either returns an error or exits the process, so the code after
the call on main.go line 209 can only run in the error case. -/
theorem daemonize_ne_returned (w a b c : Bool) : daemonize w a b c ≠ DRes.returned := by
  unfold daemonize
  cases w <;> cases a <;> cases b <;> cases c <;> simp

/-- The child-branch events are pre-PID events. -/
theorem startEvs_all (m : MainEnv) : (startEvs m).all preEv = true := by
  unfold startEvs
  split <;> simp [preEv]

/-- Shorthand for the inventory property of a stage result. -/
def EvsInv (x : Except RunResult PreSt) : Prop :=
  (∀ st, x = .ok st → st.evs.all preEv = true)
  ∧ (∀ r, x = .error r →
      r.events.all preEv = true ∧ r.outcome ≠ Outcome.normalReturn)

theorem mainFinish_evs (m : MainEnv) (cfg : Config) (p2 : String) (evs1 : List Ev)
    (hall : evs1.all preEv = true) : EvsInv (mainFinish m cfg p2 evs1) := by
  constructor
  · intro st h
    unfold mainFinish at h
    split at h
    · cases h
    · injection h with h2; subst h2; exact hall
  · intro r h
    unfold mainFinish at h
    split at h
    · injection h with h2; subst h2; exact ⟨hall, by simp⟩
    · cases h

theorem mainResolvePw_evs (m : MainEnv) (cfg : Config) :
    EvsInv (mainResolvePw m cfg) := by
  have hs := startEvs_all m
  have hs2 : (startEvs m ++ [Ev.readFile m.flags.passwordFile]).all preEv = true := by
    simp [List.all_append, hs, preEv]
  constructor
  · intro st h
    unfold mainResolvePw at h
    repeat' split at h
    all_goals (try cases h)
    all_goals
      first
      | exact (mainFinish_evs m cfg _ _ hs2).1 st h
      | exact (mainFinish_evs m cfg _ _ hs).1 st h
  · intro r h
    unfold mainResolvePw at h
    repeat' split at h
    all_goals (try (injection h with h2; subst h2; exact ⟨hs2, by simp⟩))
    all_goals
      first
      | exact (mainFinish_evs m cfg _ _ hs2).2 r h
      | exact (mainFinish_evs m cfg _ _ hs).2 r h

/-- Inventory of mainPre: the state handed to mainPost only carries
pre-PID events, and an early exit only carries pre-PID events and is
never a normal return. -/
theorem mainPre_evs (m : MainEnv) : EvsInv (mainPre m) := by
  have hs := startEvs_all m
  have hcfg : ∀ cfg, EvsInv (mainResolvePw m cfg) := fun cfg => mainResolvePw_evs m cfg
  have hrd : EvsInv (mainReadCfg m) := by
    constructor
    · intro st h
      unfold mainReadCfg at h
      repeat' split at h
      all_goals (try cases h)
      all_goals exact (hcfg _).1 st h
    · intro r h
      unfold mainReadCfg at h
      repeat' split at h
      all_goals (try (injection h with h2; subst h2; exact ⟨hs, by simp⟩))
      all_goals exact (hcfg _).2 r h
  constructor
  · intro st h
    unfold mainPre at h
    repeat' split at h
    all_goals (try cases h)
    all_goals exact hrd.1 st h
  · intro r h
    unfold mainPre at h
    repeat' split at h
    all_goals (try (injection h with h2; subst h2; exact ⟨hs, by simp⟩))
    all_goals exact hrd.2 r h

/-- A PID marker removal event only appears in runs that return normally
from main: every other exit goes through os.Exit and skips the deferred
removePIDFile. -/
theorem mainPost_remove_inv (m : MainEnv) (st : PreSt) (hall : st.evs.all preEv = true) :
    (mainPost m st).outcome = Outcome.normalReturn
    ∨ ∀ p, Ev.removePID p ∉ (mainPost m st).events := by
  have hno : ∀ p, ¬ Ev.removePID p ∈ st.evs := by
    intro p hp
    have h2 := List.all_eq_true.mp hall _ hp
    simp [preEv] at h2
  simp only [mainPost]
  repeat' split
  all_goals (try (left; rfl))
  all_goals (try (exfalso; exact daemonize_ne_returned _ _ _ _ (by assumption)))
  all_goals (right; intro p hp; simp [List.mem_append, hno p] at hp)

/-! ## Claim C1 -/

/-- A daemon child: started with the marker variable set to "1" and the
parent password "secret" in the handoff variable, with the original
command line still carrying the password-file flag; the file was removed
by the parent. -/
def c1env : MainEnv :=
  { envBase with
    envDaemonized := "1",
    envHandoffPassword := "secret",
    daemon := true,
    ce := ceSudo,
    flags := { flagsNone with
      passwordFile := "/tmp/p",
      removePassFile := true } }

/-- The same child when the password file still exists and holds a value
different from the handoff one. -/
def c1envB : MainEnv :=
  { c1env with
    readPwFile := fun p =>
      if p = "/tmp/p" then .ok "other\n" else .error "no such file or directory" }

/-- Claim C1: in a daemon child the resolved password is the handoff
value, the handoff variable is cleared, and the password-file argument is
discarded. The code contradicts this (and its own comments on main.go
lines 105 to 110): flag registration resets opts.Password and
passwordFile after the child branch ran, so the child clears the handoff
variable but then re-reads the password file: fatally when the parent
removed it, and otherwise resolving to the file content rather than the
handoff value. -/
theorem c1_daemon_child_rereads_password_file :
    (mainRun c1env).outcome =
        Outcome.fatalExit "failed to read password file: no such file or directory"
    ∧ (mainRun c1env).events = [Ev.setEnvVar "__GOF5_PASSWORD" "", Ev.readFile "/tmp/p"]
    ∧ (mainRun c1env).passwordFileVar = "/tmp/p"
    ∧ (mainRun c1env).envHandoff = ""
    ∧ (mainRun c1envB).password = "other" :=
  ⟨rfl, rfl, rfl, rfl, rfl⟩

/-! ## Claim C2 -/

/-- A daemon child (marker variable set) whose PID marker write fails. -/
def c2env : MainEnv :=
  { envBase with
    envDaemonized := "1",
    envGOF5Password := "pw",
    ce := ceSudo,
    pidWriteErr := some "failed to write PID file: permission denied" }

/-- Claim C2: after the fork the daemon child rewrites the PID marker and
a rewrite failure is a non-fatal warning. The code contradicts this (and
its own comments on main.go lines 213 to 219): daemonize never returns
normally, so the rewrite-with-warning branch of lines 219 to 222 is
unreachable; the actual child is a fresh process that writes its PID
through main.go line 182, where a failure is fatal. -/
theorem c2_daemon_child_rewrite_unreachable :
    (∀ w a b c, daemonize w a b c ≠ DRes.returned)
    ∧ (mainRun c2env).outcome =
        Outcome.fatalExit "failed to write PID file: permission denied" :=
  ⟨daemonize_ne_returned, rfl⟩

/-! ## Claim C3 -/

/-- A foreground run whose Connect call fails after the PID marker was
written. -/
def c3env : MainEnv := { envBase with connectErr := some "connection failed" }

/-- Claim C3 counterexample: an execution that writes the PID marker and
is not the parent-before-fork path, yet exits with the marker still in
place: the fatal exit after a Connect failure goes through os.Exit and
skips the deferred removal. -/
theorem c3_fatal_exit_leaves_pid_marker :
    (mainRun c3env).events = [Ev.writePID "/tmp/gof5/alice.pid" 4242]
    ∧ (mainRun c3env).outcome = Outcome.fatalExit "connection failed"
    ∧ (mainRun c3env).outcome ≠ Outcome.parentExit
    ∧ ∀ p, Ev.removePID p ∉ (mainRun c3env).events := by
  refine ⟨rfl, rfl, ?_, ?_⟩
  · rw [show (mainRun c3env).outcome = Outcome.fatalExit "connection failed" from rfl]
    simp
  · intro p hp
    rw [show (mainRun c3env).events = [Ev.writePID "/tmp/gof5/alice.pid" 4242] from rfl] at hp
    simp at hp

/-! ## Claim C4 -/

/-- Running as root with SUDO_UID set to an id whose lookup fails and
SUDO_USER unset, with a custom configuration path. -/
def c4env : CfgEnv :=
  { ceAlice with
    euid := 0,
    sudoUID := "1001",
    sudoUser := "",
    customConfigPath := "/etc/gof5/config.yaml" }

/-- Claim C4: failure to resolve any identity is fatal and the resolver
never proceeds with an unresolved identity. The code contradicts this:
when the id lookup fails and the companion marker is empty, the identity
block falls through without returning an error (usr stays nil), and the
resolver proceeds until it dereferences the nil usr (config.go line 71),
a runtime panic rather than a returned resolution error. -/
theorem c4_unresolved_identity_proceeds :
    sudoResolveUsr c4env = Except.ok none
    ∧ ReadConfig c4env = Except.error CfgErr.nilDeref :=
  ⟨rfl, rfl⟩

/-! ## Claim C5 -/

/-- The scenario of the claim: password-file /tmp/p containing a
newline-terminated secret, removal requested, daemon mode requested. -/
def c5env : MainEnv :=
  { envBase with
    daemon := true,
    flags := { flagsNone with
      passwordFile := "/tmp/p",
      removePassFile := true },
    readPwFile := fun p =>
      if p = "/tmp/p" then .ok "secret\n" else .error "no such file or directory" }

/-- Claim C5: with password-file /tmp/p containing a newline-terminated
secret, removal requested and daemon mode on, the parent resolves the
password to the trimmed "secret" and removes /tmp/p before the fork, so
the file is gone once daemonization begins (the removeFile event precedes
the fork event in the trace). -/
theorem c5_password_file_daemon_scenario :
    mainRun c5env =
      { outcome := Outcome.parentExit,
        events := [Ev.readFile "/tmp/p", Ev.writePID "/tmp/gof5/alice.pid" 4242,
                   Ev.setEnvVar "__GOF5_PASSWORD" "secret",
                   Ev.setEnvVar "__GOF5_DAEMONIZED" "1",
                   Ev.removeFile "/tmp/p", Ev.fork],
        password := "secret", passwordFileVar := "/tmp/p", envHandoff := "secret",
        envMarker := "1", cfg := some cfgAlice, logPath := some "/tmp/gof5/alice.log" } :=
  rfl

/-! ## Helper lemmas about the configuration resolver stages -/

theorem readConfigStat_usr (e : CfgEnv) (uo : Option GoUser) (cp cf : String)
    (ui gi : Int) (st : CfgPre) (h : readConfigStat e uo cp cf ui gi = .ok st) :
    st.usr = uo ∧ st.configPath = cp ∧ st.uid = ui ∧ st.gid = gi := by
  unfold readConfigStat at h
  repeat' split at h
  all_goals cases h
  all_goals exact ⟨rfl, rfl, rfl, rfl⟩

theorem readConfigIds_usr (e : CfgEnv) (uo : Option GoUser) (cp cf : String)
    (st : CfgPre) (h : readConfigIds e uo cp cf = .ok st) :
    st.usr = uo ∧ st.configPath = cp := by
  unfold readConfigIds at h
  repeat' split at h
  all_goals (try cases h)
  all_goals exact ⟨(readConfigStat_usr _ _ _ _ _ _ _ h).1,
    (readConfigStat_usr _ _ _ _ _ _ _ h).2.1⟩

theorem readConfigIds_ids (e : CfgEnv) (u : GoUser) (cp cf : String) (st : CfgPre)
    (iu ig : Int) (hg : e.goos ≠ "windows")
    (hu : goAtoi u.uid = some iu) (hgid : goAtoi u.gid = some ig)
    (h : readConfigIds e (some u) cp cf = .ok st) :
    st.uid = iu ∧ st.gid = ig := by
  unfold readConfigIds at h
  rw [if_pos hg] at h
  simp only [hu, hgid] at h
  exact ⟨(readConfigStat_usr _ _ _ _ _ _ _ h).2.2.1,
    (readConfigStat_usr _ _ _ _ _ _ _ h).2.2.2⟩

theorem readConfigPaths_usr (e : CfgEnv) (uo : Option GoUser) (st : CfgPre)
    (h : readConfigPaths e uo = .ok st) : st.usr = uo := by
  unfold readConfigPaths at h
  split at h
  · exact (readConfigIds_usr _ _ _ _ _ h).1
  · split at h
    · cases h
    · exact (readConfigIds_usr _ _ _ _ _ h).1

theorem readConfigPre_usr (e : CfgEnv) (uo : Option GoUser) (st : CfgPre)
    (hsr : sudoResolveUsr e = .ok uo) (h : readConfigPre e = .ok st) :
    st.usr = uo := by
  unfold readConfigPre at h
  split at h
  · rename_i er heq
    rw [hsr] at heq
    cases heq
  · rename_i usrOpt heq
    rw [hsr] at heq
    injection heq with heq2
    subst heq2
    exact readConfigPaths_usr _ _ _ h

theorem readConfigPaths_ids (e : CfgEnv) (u : GoUser) (st : CfgPre) (iu ig : Int)
    (hg : e.goos ≠ "windows")
    (hu : goAtoi u.uid = some iu) (hgid : goAtoi u.gid = some ig)
    (h : readConfigPaths e (some u) = .ok st) :
    st.uid = iu ∧ st.gid = ig := by
  unfold readConfigPaths at h
  split at h
  · exact readConfigIds_ids _ _ _ _ _ _ _ hg hu hgid h
  · exact readConfigIds_ids _ _ _ _ _ _ _ hg hu hgid h

theorem readConfigPre_ids (e : CfgEnv) (u : GoUser) (st : CfgPre) (iu ig : Int)
    (hsr : sudoResolveUsr e = .ok (some u)) (hg : e.goos ≠ "windows")
    (hu : goAtoi u.uid = some iu) (hgid : goAtoi u.gid = some ig)
    (h : readConfigPre e = .ok st) :
    st.uid = iu ∧ st.gid = ig := by
  unfold readConfigPre at h
  split at h
  · rename_i er heq
    rw [hsr] at heq
    cases heq
  · rename_i usrOpt heq
    rw [hsr] at heq
    injection heq with heq2
    subst heq2
    exact readConfigPaths_ids _ _ _ _ _ hg hu hgid h

theorem readConfigCookie_fields (e : CfgEnv) (st : CfgPre) (driver : String)
    (dns : List Nat) (cfg : Config) (h : readConfigCookie e st driver dns = .ok cfg) :
    cfg.driver = driver ∧ cfg.listenDNS = dns ∧ cfg.uid = st.uid ∧ cfg.gid = st.gid
    ∧ ∃ u, st.usr = some u ∧ cfg.cookiePath = goJoin u.homeDir configDir := by
  simp only [readConfigCookie] at h
  split at h
  · cases h
  · rename_i u heq
    refine ⟨?_, ?_, ?_, ?_, u, heq, ?_⟩ <;>
    · repeat' split at h
      all_goals cases h
      all_goals rfl

theorem readConfigValidate_fields (e : CfgEnv) (st : CfgPre) (d0 : String)
    (l0 : Option (List Nat)) (cfg : Config)
    (h : readConfigValidate e st d0 l0 = .ok cfg) :
    cfg.driver = (if d0 = "" then "wireguard" else d0)
    ∧ cfg.listenDNS = l0.getD (if e.goos = "freebsd" ∨ e.goos = "darwin"
        then defaultBSDDNSListenAddr else defaultDNSListenAddr)
    ∧ cfg.uid = st.uid ∧ cfg.gid = st.gid
    ∧ ∃ u, st.usr = some u ∧ cfg.cookiePath = goJoin u.homeDir configDir := by
  simp only [readConfigValidate] at h
  repeat' split at h
  all_goals (try cases h)
  all_goals
    rcases readConfigCookie_fields _ _ _ _ _ h with ⟨h1, h2, h3, h4, u, h5, h6⟩
  all_goals refine ⟨?_, ?_, h3, h4, u, h5, h6⟩
  all_goals simp_all [Option.getD]

theorem ReadConfig_ok_parts (e : CfgEnv) (cfg : Config) (h : ReadConfig e = .ok cfg) :
    ∃ st, readConfigPre e = .ok st ∧ readConfigPost e st = .ok cfg := by
  unfold ReadConfig at h
  split at h
  · cases h
  · rename_i st heq
    exact ⟨st, heq, h⟩

theorem readConfigPost_cookie (e : CfgEnv) (st : CfgPre) (cfg : Config)
    (h : readConfigPost e st = .ok cfg) :
    cfg.uid = st.uid ∧ cfg.gid = st.gid
    ∧ ∃ u, st.usr = some u ∧ cfg.cookiePath = goJoin u.homeDir configDir := by
  unfold readConfigPost at h
  split at h
  · rcases readConfigValidate_fields _ _ _ _ _ h with ⟨_, _, h3, h4, u, h5, h6⟩
    exact ⟨h3, h4, u, h5, h6⟩
  · rcases readConfigValidate_fields _ _ _ _ _ h with ⟨_, _, h3, h4, u, h5, h6⟩
    exact ⟨h3, h4, u, h5, h6⟩
  · cases h

/-! ## Claim C7 -/

/-- Claim C7: whatever the configuration-file path, the cookie directory
of the resolved Config is the fixed dot-directory under the home
directory of the resolved user (config.go line 139), never derived from the
custom configuration path. -/
theorem c7_cookie_path_fixed_under_home (e : CfgEnv) (u : GoUser) (cfg : Config)
    (hu : sudoResolveUsr e = .ok (some u)) (h : ReadConfig e = .ok cfg) :
    cfg.cookiePath = goJoin u.homeDir configDir := by
  rcases ReadConfig_ok_parts e cfg h with ⟨st, hpre, hpost⟩
  have husr := readConfigPre_usr e (some u) st hu hpre
  rcases readConfigPost_cookie e st cfg hpost with ⟨_, _, u2, h5, h6⟩
  rw [husr] at h5
  injection h5 with h5b
  subst h5b
  exact h6

/-- A resolver environment with a custom configuration path far from the
home directory. -/
def ce7 : CfgEnv := { ceAlice with customConfigPath := "/etc/gof5/config.yaml" }

/-- The Config resolved in ce7: the configuration directory follows the
custom path while the cookie directory stays under the home directory. -/
def cfg7 : Config :=
  { driver := "wireguard", listenDNS := [127, 0, 0, 245], path := "/etc/gof5",
    cookiePath := "/home/alice/.gof5", uid := 1000, gid := 1000, debug := false }

theorem c7_cookie_path_fixed_under_home_witness :
    (sudoResolveUsr ce7 = Except.ok (some alice) ∧ ReadConfig ce7 = Except.ok cfg7)
    ∧ cfg7.cookiePath = goJoin alice.homeDir configDir :=
  ⟨⟨rfl, rfl⟩, c7_cookie_path_fixed_under_home ce7 alice cfg7 rfl rfl⟩

/-! ## Claim C8 -/

/-- Claim C8: resolution of the driver and the DNS listener address is a
round trip on explicit values and a default otherwise: the resolved
driver is the document value when set and "wireguard" otherwise, and the
resolved DNS listener address is the document value when set and the
platform loopback default otherwise (a different loopback on the BSD
family). -/
theorem c8_driver_dns_resolution (e : CfgEnv) (d : String) (l : Option (List Nat))
    (cfg : Config) (hf : e.fileRead = .ok d l) (h : ReadConfig e = .ok cfg) :
    cfg.driver = (if d = "" then "wireguard" else d)
    ∧ cfg.listenDNS = l.getD (if e.goos = "freebsd" ∨ e.goos = "darwin"
        then defaultBSDDNSListenAddr else defaultDNSListenAddr) := by
  rcases ReadConfig_ok_parts e cfg h with ⟨st, hpre, hpost⟩
  unfold readConfigPost at hpost
  split at hpost
  · rename_i d2 l2 heq
    rw [hf] at heq
    injection heq with heqd heql
    subst heqd
    subst heql
    rcases readConfigValidate_fields _ _ _ _ _ hpost with ⟨h1, h2, _⟩
    exact ⟨h1, h2⟩
  · rename_i heq
    rw [hf] at heq
    cases heq
  · cases hpost

/-- A settings document with an explicit driver and DNS address. -/
def ce8 : CfgEnv := { ceAlice with fileRead := .ok "pppd" (some [10, 0, 0, 53]) }

/-- The Config resolved in ce8: both explicit values survive unchanged. -/
def cfg8 : Config :=
  { driver := "pppd", listenDNS := [10, 0, 0, 53], path := "/home/alice/.gof5",
    cookiePath := "/home/alice/.gof5", uid := 1000, gid := 1000, debug := false }

theorem c8_driver_dns_resolution_witness :
    (ce8.fileRead = ReadRes.ok "pppd" (some [10, 0, 0, 53])
     ∧ ReadConfig ce8 = Except.ok cfg8)
    ∧ cfg8.driver = (if "pppd" = "" then "wireguard" else "pppd")
    ∧ cfg8.listenDNS = (some [10, 0, 0, 53]).getD
        (if ce8.goos = "freebsd" ∨ ce8.goos = "darwin"
         then defaultBSDDNSListenAddr else defaultDNSListenAddr) :=
  ⟨⟨rfl, rfl⟩, c8_driver_dns_resolution ce8 "pppd" (some [10, 0, 0, 53]) cfg8 rfl rfl⟩

/-! ## Claim C9 -/

/-- Claim C9: a driver value outside the supported set fails resolution
with a message naming the offending value and the supported set
(config.go line 123), and the pppd driver on windows fails with the
explicit unsupported-combination message (config.go line 119). The third
conjunct exhibits the offending value inside the message text. -/
theorem c9_driver_validation_failures (e : CfgEnv) (st : CfgPre) (d : String)
    (l : Option (List Nat)) :
    (readConfigPre e = .ok st → e.fileRead = .ok d l → d ≠ "" →
      strSliceContains supportedDrivers d = false →
      ReadConfig e = .error (.fatal (unsupportedDriverMsg d)))
    ∧ (readConfigPre e = .ok st → e.fileRead = .ok "pppd" l → e.goos = "windows" →
      ReadConfig e = .error (.fatal "pppd driver is not supported in Windows"))
    ∧ ∀ d2 : String, ∃ s t, unsupportedDriverMsg d2 = s ++ d2 ++ t := by
  refine ⟨?_, ?_, ?_⟩
  · intro hpre hf hne hcont
    have hnw : d ≠ "wireguard" := by
      rintro rfl
      simp [strSliceContains, supportedDrivers] at hcont
    have hnp : d ≠ "pppd" := by
      rintro rfl
      simp [strSliceContains, supportedDrivers] at hcont
    simp only [ReadConfig, hpre, readConfigPost, hf, readConfigValidate]
    rw [if_neg hne]
    rw [if_neg (fun hc => hnw hc.1)]
    rw [if_neg (fun hc => hnp hc.1)]
    rw [if_pos (by simp [hcont])]
  · intro hpre hf hw
    simp only [ReadConfig, hpre, readConfigPost, hf, readConfigValidate]
    rw [if_neg (show ¬("pppd" : String) = "" by decide)]
    rw [if_neg (fun hc => by exact absurd hc.1 (by decide))]
    rw [if_pos ⟨rfl, hw⟩]
  · intro d2
    exact ⟨"\"",
      "\" driver is unsupported, supported drivers are: [\"wireguard\" \"pppd\"]", rfl⟩

/-- A settings document naming an unsupported driver. -/
def ce9a : CfgEnv := { ceAlice with fileRead := .ok "openvpn" none }

/-- A settings document naming pppd, resolved on windows. -/
def ce9b : CfgEnv := { ceAlice with goos := "windows", fileRead := .ok "pppd" none }

/-- The pre-state for ce9a: alice, default paths, unix ids. -/
def st9a : CfgPre :=
  { usr := some alice, configPath := "/home/alice/.gof5",
    configFile := "/home/alice/.gof5/config.yaml", uid := 1000, gid := 1000 }

/-- The pre-state for ce9b: windows skips the id conversion. -/
def st9b : CfgPre :=
  { usr := some alice, configPath := "/home/alice/.gof5",
    configFile := "/home/alice/.gof5/config.yaml", uid := 0, gid := 0 }

theorem c9_driver_validation_failures_witness :
    (readConfigPre ce9a = Except.ok st9a
     ∧ ReadConfig ce9a = Except.error (CfgErr.fatal (unsupportedDriverMsg "openvpn")))
    ∧ (readConfigPre ce9b = Except.ok st9b
       ∧ ReadConfig ce9b = Except.error
           (CfgErr.fatal "pppd driver is not supported in Windows")) :=
  ⟨⟨rfl, (c9_driver_validation_failures ce9a st9a "openvpn" none).1 rfl rfl
      (by decide) rfl⟩,
   ⟨rfl, (c9_driver_validation_failures ce9b st9b "pppd" none).2.1 rfl rfl rfl⟩⟩

/-! ## Claim C3, amended -/

/-- Claim C3, amended: the deferred removal of the PID marker runs only
on a normal return from main. A removal event implies a normal return
(first conjunct), and every run that reaches the marker write and is
neither the daemon parent branch nor a fatal exit ends in a normal
return whose trace removes its marker (second conjunct); the fatal exits
and the parent exit are shown marker-preserving by the counterexample. -/
theorem c3_pid_removal_only_on_normal_return :
    (∀ (m : MainEnv) (p : String),
        Ev.removePID p ∈ (mainRun m).events → (mainRun m).outcome = Outcome.normalReturn)
    ∧ (∀ (m : MainEnv) (st : PreSt), mainPre m = .ok st → m.pidWriteErr = none →
        m.connectErr = none → ¬(m.daemon = true ∧ m.envDaemonized ≠ "1") →
        (mainRun m).outcome = Outcome.normalReturn
        ∧ Ev.removePID (mainPidPath st.usr) ∈ (mainRun m).events) := by
  constructor
  · intro m p hmem
    simp only [mainRun] at hmem ⊢
    cases hpre : mainPre m with
    | error r =>
      simp only [hpre] at hmem ⊢
      exfalso
      have hall := ((mainPre_evs m).2 r hpre).1
      have h2 := List.all_eq_true.mp hall _ hmem
      simp [preEv] at h2
    | ok st =>
      simp only [hpre] at hmem ⊢
      rcases mainPost_remove_inv m st ((mainPre_evs m).1 st hpre) with h | h
      · exact h
      · exact absurd hmem (h p)
  · intro m st hpre hw hconn hnd
    simp only [mainRun, hpre]
    simp only [mainPost, hw]
    rw [if_neg hnd]
    simp only [hconn]
    constructor
    · trivial
    · repeat' split
      all_goals simp [List.mem_append]

/-- The state mainPre builds in the baseline alice run. -/
def stBase : PreSt :=
  { password := "", passwordFileVar := "", cfg := cfgAlice, usr := alice,
    envHandoff := "", evs := [] }

theorem c3_pid_removal_only_on_normal_return_witness :
    (mainRun envBase).outcome = Outcome.normalReturn
    ∧ Ev.removePID (mainPidPath alice) ∈ (mainRun envBase).events :=
  c3_pid_removal_only_on_normal_return.2 envBase stBase rfl rfl rfl (by decide)

/-! ## Claim C6 -/

/-- Claim C6: a run that requests daemon mode while not already the
daemon child and whose resolved password is empty exits fatally with the
specific daemon-password message of main.go line 190, and its trace has
no fork. -/
theorem c6_daemon_mode_requires_password (m : MainEnv) (st : PreSt)
    (hpre : mainPre m = .ok st) (hpw : st.password = "")
    (hd : m.daemon = true) (hc : m.envDaemonized ≠ "1")
    (hw : m.pidWriteErr = none) :
    (mainRun m).outcome = Outcome.fatalExit daemonPasswordRequiredMsg
    ∧ Ev.fork ∉ (mainRun m).events := by
  have hall := (mainPre_evs m).1 st hpre
  simp only [mainRun, hpre]
  simp only [mainPost, hw]
  rw [if_pos ⟨hd, hc⟩]
  rw [if_pos hpw]
  constructor
  · rfl
  · intro hmem
    rw [List.mem_append] at hmem
    rcases hmem with hmem | hmem
    · have h2 := List.all_eq_true.mp hall _ hmem
      simp [preEv] at h2
    · simp at hmem

/-- The baseline run with daemon mode requested and no password source. -/
def c6env : MainEnv := { envBase with daemon := true }

theorem c6_daemon_mode_requires_password_witness :
    (mainRun c6env).outcome = Outcome.fatalExit daemonPasswordRequiredMsg
    ∧ Ev.fork ∉ (mainRun c6env).events :=
  c6_daemon_mode_requires_password c6env stBase rfl rfl rfl (by decide) rfl

/-! ## Claim C10 -/

theorem mainFinish_ok (m : MainEnv) (cfg : Config) (p2 : String) (evs1 : List Ev)
    (st : PreSt) (h : mainFinish m cfg p2 evs1 = .ok st) :
    m.ce.currentUser = some st.usr ∧ st.cfg = cfg := by
  unfold mainFinish at h
  split at h
  · cases h
  · rename_i usr heq
    cases h
    exact ⟨heq, rfl⟩

theorem mainResolvePw_ok (m : MainEnv) (cfg : Config) (st : PreSt)
    (h : mainResolvePw m cfg = .ok st) :
    m.ce.currentUser = some st.usr ∧ st.cfg = cfg := by
  unfold mainResolvePw at h
  repeat' split at h
  all_goals (try cases h)
  all_goals exact mainFinish_ok _ _ _ _ _ h

theorem mainReadCfg_ok (m : MainEnv) (st : PreSt) (h : mainReadCfg m = .ok st) :
    m.ce.currentUser = some st.usr ∧ ReadConfig (mainCfgEnv m) = .ok st.cfg := by
  unfold mainReadCfg at h
  split at h
  · cases h
  · cases h
  · rename_i cfg heq
    rcases mainResolvePw_ok _ _ _ h with ⟨h1, h2⟩
    rw [h2]
    exact ⟨h1, heq⟩

theorem mainPre_ok (m : MainEnv) (st : PreSt) (h : mainPre m = .ok st) :
    m.ce.currentUser = some st.usr ∧ ReadConfig (mainCfgEnv m) = .ok st.cfg := by
  unfold mainPre at h
  repeat' split at h
  all_goals (try cases h)
  all_goals exact mainReadCfg_ok m st h

/-- The PID marker path determines the username segment. -/
theorem mainPidPath_inj (u1 u2 : GoUser) (h : mainPidPath u1 = mainPidPath u2) :
    u1.username = u2.username := by
  unfold mainPidPath goJoin at h
  have h2 := congrArg String.data h
  simp only [String.data_append, List.append_assoc] at h2
  have h3 := List.append_cancel_left h2
  have h4 := List.append_cancel_left h3
  have h5 := List.append_cancel_left h4
  have h6 := List.append_cancel_left h5
  exact String.ext (List.append_cancel_right h6)

/-- In the daemon parent branch, the PID marker write and the daemon log
path are both derived from the user held in the pre-state. -/
theorem mainPost_daemon_evs (m : MainEnv) (st : PreSt)
    (hw : m.pidWriteErr = none) (hd : m.daemon = true) (hc : m.envDaemonized ≠ "1")
    (hpw : st.password ≠ "") (hlf : m.flags.logFile = "") :
    Ev.writePID (mainPidPath st.usr) m.pid ∈ (mainPost m st).events
    ∧ (mainPost m st).logPath = some (mainLogPath st.usr) := by
  simp only [mainPost, hw]
  rw [if_pos ⟨hd, hc⟩, if_neg hpw, if_pos hlf]
  split
  · constructor
    · repeat' split
      all_goals simp [List.mem_append]
    · rfl
  · constructor
    · repeat' split
      all_goals simp [List.mem_append]
    · rfl
  · exact absurd (by assumption) (daemonize_ne_returned _ _ _ _)

/-- Claim C10: under a sudo-escalated invocation (effective uid 0, the
sudo id marker resolving to the original user uo, the current-user lookup
answering the escalated user uc) the PID marker path and the default
daemon log path are derived from uc (main.go lines 179 and 206), while
the configuration resolver works with uo: the cookie directory lies under
the home directory of uo and the numeric owner ids are those of uo. When the two
usernames differ, the per-user PID paths differ as well. -/
theorem c10_pid_log_paths_use_current_user (m : MainEnv) (st : PreSt)
    (uo uc : GoUser) (iu ig : Int)
    (heuid : m.ce.euid = 0) (hsid : m.ce.sudoUID ≠ "")
    (hlook : m.ce.lookupId m.ce.sudoUID = some uo)
    (hcur : m.ce.currentUser = some uc)
    (hgoos : m.ce.goos ≠ "windows")
    (hui : goAtoi uo.uid = some iu) (hgi : goAtoi uo.gid = some ig)
    (hpre : mainPre m = .ok st)
    (hw : m.pidWriteErr = none) (hd : m.daemon = true) (hc : m.envDaemonized ≠ "1")
    (hpw : st.password ≠ "") (hlf : m.flags.logFile = "") :
    st.usr = uc
    ∧ Ev.writePID (mainPidPath uc) m.pid ∈ (mainRun m).events
    ∧ (mainRun m).logPath = some (mainLogPath uc)
    ∧ st.cfg.cookiePath = goJoin uo.homeDir configDir
    ∧ st.cfg.uid = iu ∧ st.cfg.gid = ig
    ∧ (uc.username ≠ uo.username → mainPidPath uc ≠ mainPidPath uo) := by
  rcases mainPre_ok m st hpre with ⟨hcu, hcfg⟩
  rw [hcur] at hcu
  injection hcu with hcu2
  have husr : st.usr = uc := hcu2.symm
  have hsr : sudoResolveUsr (mainCfgEnv m) = .ok (some uo) := by
    unfold sudoResolveUsr
    rw [if_pos ⟨heuid, hsid⟩]
    rw [show (mainCfgEnv m).lookupId (mainCfgEnv m).sudoUID = some uo from hlook]
  rcases ReadConfig_ok_parts _ _ hcfg with ⟨stc, hpre2, hpost2⟩
  have husr2 := readConfigPre_usr _ _ _ hsr hpre2
  rcases readConfigPre_ids _ _ _ _ _ hsr
      (show (mainCfgEnv m).goos ≠ "windows" from hgoos) hui hgi hpre2 with ⟨hid1, hid2⟩
  rcases readConfigPost_cookie _ _ _ hpost2 with ⟨hcu1, hcg1, u2, hu2, hck⟩
  rw [husr2] at hu2
  injection hu2 with hu2b
  subst hu2b
  have hev := mainPost_daemon_evs m st hw hd hc hpw hlf
  rw [husr] at hev
  have hrun : mainRun m = mainPost m st := by simp only [mainRun, hpre]
  refine ⟨husr, ?_, ?_, hck, ?_, ?_, ?_⟩
  · rw [hrun]; exact hev.1
  · rw [hrun]; exact hev.2
  · rw [hcu1, hid1]
  · rw [hcg1, hid2]
  · intro hne h
    exact hne (mainPidPath_inj uc uo h)

/-- The sudo-escalated run: root is the current user, alice the original
sudo user, a password supplied through the environment. -/
def c10env : MainEnv :=
  { envBase with
    daemon := true,
    envGOF5Password := "pw",
    ce := ceSudo }

/-- The state mainPre builds in c10env. -/
def st10 : PreSt :=
  { password := "pw", passwordFileVar := "", cfg := cfgAlice, usr := rootUser,
    envHandoff := "", evs := [] }

theorem c10_pid_log_paths_use_current_user_witness :
    st10.usr = rootUser
    ∧ Ev.writePID (mainPidPath rootUser) c10env.pid ∈ (mainRun c10env).events
    ∧ (mainRun c10env).logPath = some (mainLogPath rootUser)
    ∧ st10.cfg.cookiePath = goJoin alice.homeDir configDir
    ∧ st10.cfg.uid = 1000 ∧ st10.cfg.gid = 1000
    ∧ (rootUser.username ≠ alice.username → mainPidPath rootUser ≠ mainPidPath alice) :=
  c10_pid_log_paths_use_current_user c10env st10 alice rootUser 1000 1000
    rfl (by decide) rfl rfl (by decide) rfl rfl rfl rfl rfl (by decide) (by decide) rfl

end Gof5
